import Mathlib

/-!
Verification development for the DRMAA executor plugin
(`snakemake_executor_plugin_drmaa/__init__.py`).

The module is shallowly embedded: the external DRMAA middleware is an
oracle supplying, per job, the outcome of each remote call (status query,
submission, terminate); the executor's observable side effects (artifact
deletion, host callbacks, log emissions) are recorded in effect records.
Machine state that the code mutates (`self.suspended_msg`, a Python set of
caller-side job ids) is threaded explicitly as a `Finset Nat`.
-/

namespace Drmaa

/-- The snakemake job object (`active_job.job` / the `job` argument of
`run_job`): caller-side job id, rule name, and the attribute map that
`job.format_wildcards` resolves template fields against. -/
structure Job where
  jobid : Nat
  rule : String
  fields : List (String × String)
  deriving DecidableEq, Repr

/-- A tracking entry (`SubmittedJobInfo`): the caller-side job, the
`jobid` attribute read by the suspension warning, the remote id assigned
at submission, and `aux["jobscript"]`, the transient script artifact. -/
structure SubmittedJobInfo where
  job : Job
  jobid : Nat
  external_jobid : Nat
  jobscript : String
  deriving DecidableEq, Repr

/-- `drmaa.JobState` values distinguished by `check_active_jobs`; the
final two fall into the code's `else` ("still running") branch. -/
inductive JobState where
  | done
  | failed
  | userSuspended
  | systemSuspended
  | running
  | queuedActive
  deriving DecidableEq, Repr

/-- Outcome of one `self.session.jobStatus(...)` call:
`timeout` is `drmaa.ExitTimeoutException`, `queryError` is any other
exception (the code's `except (drmaa.InternalException, Exception)`),
and `status` is a normal return. -/
inductive QueryResult where
  | timeout
  | queryError (e : String)
  | status (s : JobState)
  deriving DecidableEq, Repr

/-- Observable side effects of processing one tracking entry in one pass
of `check_active_jobs`: whether the entry was re-yielded, whether
`os.remove(jobscript)` ran, which terminal callback ran, whether the
query-error diagnostic was logged, and the suspension warning, if any. -/
structure StepEffects where
  yielded : Bool
  deletedScript : Bool
  reportedSuccess : Bool
  reportedError : Bool
  loggedError : Bool
  warning : Option String
  deriving DecidableEq, Repr

/-- The text of `self.logger.warning(...)` in `handle_suspended`. -/
def suspendedWarning (jobid drmaaId : Nat) (cause : String) : String :=
  "Job " ++ toString jobid ++ " (DRMAA id: " ++ toString drmaaId ++
    ") was suspended by " ++ cause ++ "."

/-- The inner `handle_suspended(by)` closure: warn and record the job id
in `suspended_msg` only if it is not already recorded. -/
def handle_suspended (susp : Finset Nat) (aj : SubmittedJobInfo) (cause : String) :
    Option String × Finset Nat :=
  if aj.job.jobid ∈ susp then (none, susp)
  else (some (suspendedWarning aj.job.jobid aj.jobid cause), insert aj.job.jobid susp)

/-- One loop iteration of `check_active_jobs` for entry `aj` whose status
query returned `q`, given the current `suspended_msg` set; returns the
entry's effects and the updated set. Mirrors the source branch for
branch: timeout → re-yield; any other query exception → log, delete
script, report error; DONE → delete script, report success; FAILED →
delete script, report error; otherwise re-yield, then warn-once on
suspension or discard the memo entry on any other still-running state. -/
def checkOne (susp : Finset Nat) (aj : SubmittedJobInfo) (q : QueryResult) :
    StepEffects × Finset Nat :=
  match q with
  | .timeout =>
      ({ yielded := true, deletedScript := false, reportedSuccess := false,
         reportedError := false, loggedError := false, warning := none }, susp)
  | .queryError _ =>
      ({ yielded := false, deletedScript := true, reportedSuccess := false,
         reportedError := true, loggedError := true, warning := none }, susp)
  | .status .done =>
      ({ yielded := false, deletedScript := true, reportedSuccess := true,
         reportedError := false, loggedError := false, warning := none }, susp)
  | .status .failed =>
      ({ yielded := false, deletedScript := true, reportedSuccess := false,
         reportedError := true, loggedError := false, warning := none }, susp)
  | .status .userSuspended =>
      let ws := handle_suspended susp aj "user"
      ({ yielded := true, deletedScript := false, reportedSuccess := false,
         reportedError := false, loggedError := false, warning := ws.1 }, ws.2)
  | .status .systemSuspended =>
      let ws := handle_suspended susp aj "system"
      ({ yielded := true, deletedScript := false, reportedSuccess := false,
         reportedError := false, loggedError := false, warning := ws.1 }, ws.2)
  | .status .running =>
      ({ yielded := true, deletedScript := false, reportedSuccess := false,
         reportedError := false, loggedError := false, warning := none },
       susp.erase aj.job.jobid)
  | .status .queuedActive =>
      ({ yielded := true, deletedScript := false, reportedSuccess := false,
         reportedError := false, loggedError := false, warning := none },
       susp.erase aj.job.jobid)

/-- Aggregate result of one full invocation of `check_active_jobs`:
entries re-yielded (in input order), scripts removed, terminal callbacks
issued, and warnings emitted. -/
structure PollResult where
  yielded : List SubmittedJobInfo
  deleted : List String
  successes : List SubmittedJobInfo
  errors : List SubmittedJobInfo
  warnings : List String
  deriving DecidableEq, Repr

/-- Prepend the effects of one entry onto the aggregate of the remaining
entries (the loop emits this entry's effects before touching the rest). -/
def consEff (aj : SubmittedJobInfo) (eff : StepEffects) (acc : PollResult) : PollResult :=
  { yielded := if eff.yielded then aj :: acc.yielded else acc.yielded
    deleted := if eff.deletedScript then aj.jobscript :: acc.deleted else acc.deleted
    successes := if eff.reportedSuccess then aj :: acc.successes else acc.successes
    errors := if eff.reportedError then aj :: acc.errors else acc.errors
    warnings := eff.warning.toList ++ acc.warnings }

/-- One invocation of `Executor.check_active_jobs` over the host-supplied
list of tracking entries, each paired with its status-query outcome;
threads `suspended_msg` through the loop in input order. -/
def check_active_jobs (susp : Finset Nat) :
    List (SubmittedJobInfo × QueryResult) → PollResult × Finset Nat
  | [] => ({ yielded := [], deleted := [], successes := [], errors := [], warnings := [] }, susp)
  | (aj, q) :: rest =>
      let step := checkOne susp aj q
      let tail := check_active_jobs step.2 rest
      (consEff aj step.1 tail.1, tail.2)

/-- Lifecycle state of a single tracked job across successive poll
invocations: whether the host still passes it to the next poll (it does
exactly when the previous poll re-yielded it), the `suspended_msg` set,
and cumulative effect counters. -/
structure SimState where
  active : Bool
  susp : Finset Nat
  deletions : Nat
  successes : Nat
  errors : Nat
  warnings : List String
  deriving DecidableEq

/-- One poll tick for a single tracked job: if the host still considers
it active, run one `check_active_jobs` iteration on it; otherwise the
entry is no longer in the host's active set and nothing happens. -/
def stepSim (aj : SubmittedJobInfo) (st : SimState) (q : QueryResult) : SimState :=
  if st.active then
    let step := checkOne st.susp aj q
    { active := step.1.yielded
      susp := step.2
      deletions := st.deletions + (if step.1.deletedScript then 1 else 0)
      successes := st.successes + (if step.1.reportedSuccess then 1 else 0)
      errors := st.errors + (if step.1.reportedError then 1 else 0)
      warnings := st.warnings ++ step.1.warning.toList }
  else st

/-- Successive poll invocations observing the given status sequence for
one tracked job. -/
def simulate (aj : SubmittedJobInfo) (st : SimState) (qs : List QueryResult) : SimState :=
  qs.foldl (stepSim aj) st

/-- A concrete tracking entry used in witnesses and counterexamples. -/
def aj0 : SubmittedJobInfo :=
  { job := { jobid := 0, rule := "a", fields := [] }
    jobid := 7, external_jobid := 100, jobscript := "/tmp/job0.sh" }

/-- The initial lifecycle state of a freshly submitted job. -/
def simInit : SimState :=
  { active := true, susp := ∅, deletions := 0, successes := 0, errors := 0, warnings := [] }

lemma stepSim_inactive (aj : SubmittedJobInfo) (st : SimState) (q : QueryResult)
    (h : st.active = false) : stepSim aj st q = st := by
  simp [stepSim, h]

lemma simulate_inactive (aj : SubmittedJobInfo) (st : SimState)
    (h : st.active = false) : ∀ qs : List QueryResult, simulate aj st qs = st := by
  intro qs
  induction qs with
  | nil => rfl
  | cons q qs ih =>
      simpa [simulate, stepSim_inactive aj st q h] using ih

/-! ### `run_job` -/

/-- Tokenized form of the native-argument template string that
`job.format_wildcards` interpolates: literal text interleaved with
`{field}` references. -/
inductive Tok where
  | lit (s : String)
  | field (name : String)
  deriving DecidableEq, Repr

/-- Attribute lookup on the job object during interpolation. -/
def lookupField : List (String × String) → String → Option String
  | [], _ => none
  | (k, v) :: rest, n => if k = n then some v else lookupField rest n

/-- The `str(e)` of the `AttributeError` raised when a template
references a missing job attribute. -/
def attrErrorMsg (name : String) : String :=
  "no attribute " ++ name

/-- `job.format_wildcards`: resolve each field reference against the
job's attributes, failing with an `AttributeError` message at the first
reference that does not resolve. -/
def format_wildcards (fields : List (String × String)) : List Tok → Except String String
  | [] => .ok ""
  | .lit s :: rest => (format_wildcards fields rest).map (fun t => s ++ t)
  | .field n :: rest =>
      match lookupField fields n with
      | none => .error (attrErrorMsg n)
      | some v => (format_wildcards fields rest).map (fun t => v ++ t)

/-- Outcome of the `self.session.runJob(jt)` call: success with a remote
id, one of the three classified exceptions (`DeniedByDrmException`,
`InternalException`, `InvalidAttributeValueException`), or any other
exception, which no handler in `run_job` catches. -/
inductive SubmitResult where
  | ok (extId : Nat)
  | deniedByDrm (e : String)
  | internal (e : String)
  | invalidAttributeValue (e : String)
  | other (e : String)
  deriving DecidableEq, Repr

/-- Whether `run_job`'s `except` clause catches this submission outcome. -/
def SubmitResult.classified : SubmitResult → Bool
  | .deniedByDrm _ => true
  | .internal _ => true
  | .invalidAttributeValue _ => true
  | _ => false

/-- The exception text, for non-`ok` outcomes. -/
def SubmitResult.errText : SubmitResult → String
  | .ok _ => ""
  | .deniedByDrm e => e
  | .internal e => e
  | .invalidAttributeValue e => e
  | .other e => e

/-- How one call to `run_job` terminates: normal return, a raised
`WorkflowError` (interpolation failure), or an uncaught exception
propagating out of the submission block. -/
inductive RunOutcome where
  | normal
  | workflowError (msg : String) (rule : String)
  | propagated (e : String)
  deriving DecidableEq, Repr

/-- Observable effects of one `run_job` call. -/
structure RunEffects where
  outcome : RunOutcome
  wroteJobscript : Bool
  madeLogDir : Bool
  createdTemplate : Bool
  deletedTemplate : Bool
  nativeSpec : Option String
  outputPath : Option String
  errorPath : Option String
  jobName : Option String
  external_jobid : Option Nat
  reportedError : Option String
  reportedSubmission : Bool
  loggedSubmission : Bool
  deriving DecidableEq, Repr

/-- `os.path.basename`. -/
def basename (s : String) : String :=
  (s.splitOn "/").getLastD s

/-- Inputs of one `run_job` call: the job, the script path produced by
`get_jobscript`, the two executor settings (`args`, tokenized, and
`log_dir`), and the middleware's response to the submission. -/
structure RunInput where
  job : Job
  jobscript : String
  args : Option (List Tok)
  log_dir : Option String
  submitResult : SubmitResult
  deriving DecidableEq, Repr

/-- `Executor.run_job`: write the jobscript; interpolate
`self.drmaa_args or ""`, turning an `AttributeError` into a
`WorkflowError` tagged with the job's rule; build the job template
(log-dir redirection overriding output/error paths, job name from the
script basename); submit. A classified submission exception is caught
and reported via `report_job_error` — and, the handler not returning,
control falls through to the submission log line, `report_job_submission`
and `deleteJobTemplate`, exactly as on success. Any other exception
propagates, skipping those three statements. -/
def run_job (inp : RunInput) : RunEffects :=
  match format_wildcards inp.job.fields (inp.args.getD []) with
  | .error e =>
      { outcome := .workflowError e inp.job.rule
        wroteJobscript := true, madeLogDir := false
        createdTemplate := false, deletedTemplate := false
        nativeSpec := none, outputPath := none, errorPath := none, jobName := none
        external_jobid := none, reportedError := none
        reportedSubmission := false, loggedSubmission := false }
  | .ok drmaa_args =>
      let outP := inp.log_dir.map (fun d => ":" ++ d)
      let base : RunEffects :=
        { outcome := .normal
          wroteJobscript := true, madeLogDir := inp.log_dir.isSome
          createdTemplate := true, deletedTemplate := true
          nativeSpec := some drmaa_args, outputPath := outP, errorPath := outP
          jobName := some (basename inp.jobscript)
          external_jobid := none, reportedError := none
          reportedSubmission := true, loggedSubmission := true }
      match inp.submitResult with
      | .ok extId => { base with external_jobid := some extId }
      | .other e =>
          { base with outcome := .propagated e
                      deletedTemplate := false
                      reportedSubmission := false, loggedSubmission := false }
      | r =>
          let msg := "Error submitting job (DRMAA error " ++ r.errText ++ ")"
          { base with reportedError := some msg }

/-- `run_job` over a batch of independent tasks (the host engine calls it
once per runnable job; no state is shared between calls). -/
def run_jobs (inps : List RunInput) : List RunEffects :=
  inps.map run_job

/-! ### `cancel_jobs` -/

/-- Outcome of one `self.session.control(id, TERMINATE)` call: success,
one of the two swallowed exceptions (`InvalidJobException`,
`InternalException`), or any other exception. -/
inductive ControlResult where
  | ok
  | invalidJob
  | internalError
  | other (e : String)
  deriving DecidableEq, Repr

/-- Whether `cancel_jobs`'s `except` clause swallows this outcome. -/
def ControlResult.swallowed : ControlResult → Bool
  | .other _ => false
  | _ => true

/-- `Executor.cancel_jobs`: issue a terminate request per entry in order,
swallowing the two expected exception classes; returns the remote ids a
terminate attempt was made for, and the exception (if any) that escaped
the loop. An unclassified exception propagates immediately, so the
remaining entries are not attempted. -/
def cancel_jobs : List (SubmittedJobInfo × ControlResult) → List Nat × Option String
  | [] => ([], none)
  | (aj, r) :: rest =>
      match r with
      | .other e => ([aj.external_jobid], some e)
      | _ =>
          let tail := cancel_jobs rest
          (aj.external_jobid :: tail.1, tail.2)

/-! ### Auxiliary concrete values and lemmas -/

/-- First field-reference in a template that does not resolve against the
job's attributes, if any. -/
def firstMissing (fields : List (String × String)) : List Tok → Option String
  | [] => none
  | .lit _ :: rest => firstMissing fields rest
  | .field n :: rest =>
      match lookupField fields n with
      | none => some n
      | some _ => firstMissing fields rest

lemma format_wildcards_of_firstMissing (fields : List (String × String))
    (toks : List Tok) (n : String) (h : firstMissing fields toks = some n) :
    format_wildcards fields toks = .error (attrErrorMsg n) := by
  induction toks with
  | nil => simp [firstMissing] at h
  | cons t rest ih =>
      cases t with
      | lit s =>
          simp only [firstMissing] at h
          simp [format_wildcards, ih h, Except.map]
      | field m =>
          cases hl : lookupField fields m with
          | none =>
              simp only [firstMissing, hl] at h
              cases Option.some.inj h
              simp [format_wildcards, hl]
          | some v =>
              simp only [firstMissing, hl] at h
              simp [format_wildcards, hl, ih h, Except.map]

/-- Whether the submission outcome is an exception outside the three
classes that `run_job` catches. -/
def SubmitResult.isOther : SubmitResult → Bool
  | .other _ => true
  | _ => false

/-- A submission input whose job template interpolation succeeds and
whose submission succeeds with remote id 5. -/
def okInput : RunInput :=
  { job := { jobid := 4, rule := "d", fields := [] }, jobscript := "/tmp/job4.sh"
    args := none, log_dir := none, submitResult := .ok 5 }

/-- A submission input rejected with `DeniedByDrmException`. -/
def deniedInput : RunInput :=
  { job := { jobid := 1, rule := "a", fields := [] }, jobscript := "/tmp/job1.sh"
    args := none, log_dir := none, submitResult := .deniedByDrm "DeniedByDrmException" }

/-- A submission input whose `runJob` call raises an exception outside
the three classified classes. -/
def unclassifiedInput : RunInput :=
  { job := { jobid := 2, rule := "b", fields := [] }, jobscript := "/tmp/job2.sh"
    args := none, log_dir := none, submitResult := .other "OutOfMemoryError" }

/-- A submission input whose native-argument template references the
attribute `threads`, which the job does not provide. -/
def missingFieldInput : RunInput :=
  { job := { jobid := 3, rule := "c", fields := [] }, jobscript := "/tmp/job3.sh"
    args := some [Tok.field "threads"], log_dir := none, submitResult := .ok 5 }

/-- A submission input with no native-argument template configured. -/
def noArgsInput : RunInput :=
  { job := { jobid := 6, rule := "f", fields := [] }, jobscript := "/tmp/job6.sh"
    args := none, log_dir := none, submitResult := .ok 9 }

/-- Tracking entries used in the cancellation scenario. -/
def ajA : SubmittedJobInfo :=
  { job := { jobid := 10, rule := "a", fields := [] }
    jobid := 20, external_jobid := 11, jobscript := "/tmp/jobA.sh" }

/-- Second tracking entry of the cancellation scenario. -/
def ajB : SubmittedJobInfo :=
  { job := { jobid := 12, rule := "b", fields := [] }
    jobid := 21, external_jobid := 12, jobscript := "/tmp/jobB.sh" }

/-- The status sequence of the suspension-episode scenario: three
user-suspended polls, one running poll, one system-suspended poll. -/
def suspendedEpisodeTrace : List QueryResult :=
  [.status .userSuspended, .status .userSuspended, .status .userSuspended,
   .status .running, .status .systemSuspended]

/-! ### Claims -/

/-- C4: a status query that raises `ExitTimeoutException` re-yields the
entry with no state change: the entry is not dropped, its jobscript is
not deleted, no terminal callback is invoked, and `suspended_msg` is
untouched. -/
theorem timeout_reyields_unchanged (susp : Finset Nat) (aj : SubmittedJobInfo) :
    checkOne susp aj .timeout =
      ({ yielded := true, deletedScript := false, reportedSuccess := false,
         reportedError := false, loggedError := false, warning := none }, susp) := rfl

/-- C5: a status query raising any non-timeout exception fails closed:
the diagnostic is logged, the jobscript is deleted, `report_job_error`
is invoked, the entry is not re-yielded, and — because the exception is
caught inside the loop — the remaining entries of the same invocation
are reconciled exactly as they would be without this entry. -/
theorem query_error_fails_closed (susp : Finset Nat) (aj : SubmittedJobInfo)
    (e : String) (rest : List (SubmittedJobInfo × QueryResult)) :
    (checkOne susp aj (.queryError e)).1.yielded = false ∧
    (checkOne susp aj (.queryError e)).1.deletedScript = true ∧
    (checkOne susp aj (.queryError e)).1.reportedError = true ∧
    (checkOne susp aj (.queryError e)).1.reportedSuccess = false ∧
    (checkOne susp aj (.queryError e)).1.loggedError = true ∧
    (checkOne susp aj (.queryError e)).2 = susp ∧
    (check_active_jobs susp ((aj, .queryError e) :: rest)).1.yielded =
      (check_active_jobs susp rest).1.yielded ∧
    (check_active_jobs susp ((aj, .queryError e) :: rest)).1.deleted =
      aj.jobscript :: (check_active_jobs susp rest).1.deleted ∧
    (check_active_jobs susp ((aj, .queryError e) :: rest)).1.errors =
      aj :: (check_active_jobs susp rest).1.errors ∧
    (check_active_jobs susp ((aj, .queryError e) :: rest)).1.successes =
      (check_active_jobs susp rest).1.successes ∧
    (check_active_jobs susp ((aj, .queryError e) :: rest)).2 =
      (check_active_jobs susp rest).2 := by
  refine ⟨rfl, rfl, rfl, rfl, rfl, rfl, ?_, ?_, ?_, ?_, ?_⟩ <;>
    simp [check_active_jobs, checkOne, consEff]

/-- C1: a terminal status observation (DONE or FAILED) deletes the
entry's jobscript exactly once, invokes exactly one terminal callback
(`report_job_success` for DONE, `report_job_error` for FAILED), does not
put the entry into the re-yielded subset, and — since the host only
passes re-yielded entries to later polls — the entry undergoes no
further effect in any subsequent poll. -/
theorem terminal_drops_entry_exactly_once (aj : SubmittedJobInfo) (st : SimState)
    (q : QueryResult) (ha : st.active = true)
    (hq : q = .status .done ∨ q = .status .failed) :
    (stepSim aj st q).active = false ∧
    (stepSim aj st q).deletions = st.deletions + 1 ∧
    (q = .status .done → (stepSim aj st q).successes = st.successes + 1 ∧
      (stepSim aj st q).errors = st.errors) ∧
    (q = .status .failed → (stepSim aj st q).errors = st.errors + 1 ∧
      (stepSim aj st q).successes = st.successes) ∧
    (∀ (s0 : Finset Nat) (rest : List (SubmittedJobInfo × QueryResult)),
      (check_active_jobs s0 ((aj, q) :: rest)).1.yielded =
        (check_active_jobs (checkOne s0 aj q).2 rest).1.yielded) ∧
    (∀ qs : List QueryResult, simulate aj (stepSim aj st q) qs = stepSim aj st q) := by
  have hact : (stepSim aj st q).active = false := by
    rcases hq with h | h <;> subst h <;> simp [stepSim, ha, checkOne]
  refine ⟨hact, ?_, ?_, ?_, ?_, simulate_inactive aj _ hact⟩ <;>
    rcases hq with h | h <;> subst h <;>
    simp [stepSim, ha, checkOne, check_active_jobs, consEff]

/-- C1 witness: a freshly tracked job observed as DONE. -/
theorem terminal_drops_entry_exactly_once_witness :
    (stepSim aj0 simInit (.status .done)).active = false ∧
    (stepSim aj0 simInit (.status .done)).deletions = simInit.deletions + 1 ∧
    (QueryResult.status .done = .status .done →
      (stepSim aj0 simInit (.status .done)).successes = simInit.successes + 1 ∧
      (stepSim aj0 simInit (.status .done)).errors = simInit.errors) ∧
    (QueryResult.status .done = .status .failed →
      (stepSim aj0 simInit (.status .done)).errors = simInit.errors + 1 ∧
      (stepSim aj0 simInit (.status .done)).successes = simInit.successes) ∧
    (∀ (s0 : Finset Nat) (rest : List (SubmittedJobInfo × QueryResult)),
      (check_active_jobs s0 ((aj0, .status .done) :: rest)).1.yielded =
        (check_active_jobs (checkOne s0 aj0 (.status .done)).2 rest).1.yielded) ∧
    (∀ qs : List QueryResult,
      simulate aj0 (stepSim aj0 simInit (.status .done)) qs =
        stepSim aj0 simInit (.status .done)) :=
  terminal_drops_entry_exactly_once aj0 simInit (.status .done) rfl (Or.inl rfl)

/-- C2 counterexample: a job observed suspended (handle 0 enters
`suspended_msg`) and then observed DONE keeps its handle in
`suspended_msg`: the DONE branch drops the entry without touching the
memo, so "every non-suspended observation removes the handle" is false. -/
theorem suspension_memo_kept_on_done :
    aj0.job.jobid ∈
      (checkOne (checkOne ∅ aj0 (.status .userSuspended)).2 aj0 (.status .done)).2 := by
  simp [checkOne, handle_suspended, aj0]

/-- C2 amended: the memo update per observation is exactly — a suspended
observation inserts the handle; a non-terminal, non-suspended status
observation (the "still running" branch) erases it; timeout, query-error
and terminal DONE/FAILED observations leave `suspended_msg` unchanged
(in particular a handle can survive its job's terminal observation). -/
theorem suspended_msg_update_characterization (susp : Finset Nat)
    (aj : SubmittedJobInfo) (q : QueryResult) :
    (checkOne susp aj q).2 =
      match q with
      | .status .userSuspended => insert aj.job.jobid susp
      | .status .systemSuspended => insert aj.job.jobid susp
      | .status .running => susp.erase aj.job.jobid
      | .status .queuedActive => susp.erase aj.job.jobid
      | _ => susp := by
  cases q with
  | timeout => rfl
  | queryError e => rfl
  | status s =>
      cases s <;> simp only [checkOne, handle_suspended] <;>
        try rfl
      all_goals
        split
        case isTrue h => exact (Finset.insert_eq_self.mpr h).symm
        case isFalse h => rfl

/-- C6: one job polled over the status sequence [suspended, suspended,
suspended, running, suspended] triggers exactly two warnings, one at the
first suspended observation of each contiguous suspended episode, each
naming the suspending party. -/
theorem suspension_warning_once_per_episode :
    (simulate aj0 simInit suspendedEpisodeTrace).warnings =
      [suspendedWarning 0 7 "user", suspendedWarning 0 7 "system"] ∧
    (simulate aj0 simInit suspendedEpisodeTrace).warnings.length = 2 := by
  constructor <;> rfl

/-- C3: on a classified submission failure the `except` handler calls
`report_job_error` but does not return, so control falls through to the
statements after the `try` block: the same call also logs the submission
and invokes `report_job_submission` with no remote id bound — the code
reports the task both failed and submitted, against the spec's
"reported as submitted only on success". -/
theorem classified_submit_error_still_reports_submission :
    (run_job deniedInput).reportedError =
      some "Error submitting job (DRMAA error DeniedByDrmException)" ∧
    (run_job deniedInput).reportedSubmission = true ∧
    (run_job deniedInput).loggedSubmission = true ∧
    (run_job deniedInput).external_jobid = none ∧
    (run_job deniedInput).outcome = .normal := by
  refine ⟨rfl, rfl, rfl, rfl, rfl⟩

/-- C7 counterexample: when the submission call raises an exception
outside the three classified classes, it propagates out of `run_job`
before the `deleteJobTemplate` line — the created template is not
deleted on that path, so "released on every execution path" is false. -/
theorem template_not_deleted_on_unclassified_error :
    (run_job unclassifiedInput).createdTemplate = true ∧
    (run_job unclassifiedInput).deletedTemplate = false ∧
    (run_job unclassifiedInput).outcome = .propagated "OutOfMemoryError" :=
  ⟨rfl, rfl, rfl⟩

/-- C7 amended: the job template is deleted on every path on which the
submission call either succeeds or raises one of the three classified
exceptions (there is no finally block, so an unclassified exception
skips the deletion). -/
theorem template_deleted_unless_unclassified_error (inp : RunInput)
    (h : inp.submitResult.isOther = false) :
    (run_job inp).createdTemplate = true → (run_job inp).deletedTemplate = true := by
  unfold run_job
  cases hf : format_wildcards inp.job.fields (inp.args.getD []) with
  | error e => intro hc; exact absurd hc (by simp)
  | ok s =>
      cases hr : inp.submitResult <;>
        simp_all [SubmitResult.isOther]

/-- C7 witness: a successful submission deletes the template it created. -/
theorem template_deleted_unless_unclassified_error_witness :
    (run_job okInput).deletedTemplate = true :=
  template_deleted_unless_unclassified_error okInput rfl rfl

/-- C8: a native-argument template referencing a job attribute that does
not exist makes `run_job` raise a `WorkflowError` carrying the
offending job's rule, before any template is built or submission
attempted; and since each `run_job` call is a pure function of its own
task, the failure leaves every other task's submission unchanged. -/
theorem undefined_field_raises_rule_scoped_error (inp : RunInput) (n : String)
    (h : firstMissing inp.job.fields (inp.args.getD []) = some n) :
    (run_job inp).outcome = .workflowError (attrErrorMsg n) inp.job.rule ∧
    (run_job inp).reportedSubmission = false ∧
    (run_job inp).createdTemplate = false ∧
    (run_job inp).external_jobid = none ∧
    (∀ pre post : List RunInput,
      run_jobs (pre ++ inp :: post) = run_jobs pre ++ run_job inp :: run_jobs post) := by
  have hf := format_wildcards_of_firstMissing inp.job.fields (inp.args.getD []) n h
  refine ⟨?_, ?_, ?_, ?_, ?_⟩ <;> simp [run_job, run_jobs, hf]

/-- C8 witness: the template `{threads}` against a job with no
attributes, submitted alongside an unaffected healthy task. -/
theorem undefined_field_raises_rule_scoped_error_witness :
    (run_job missingFieldInput).outcome = .workflowError (attrErrorMsg "threads") "c" ∧
    (run_job missingFieldInput).reportedSubmission = false ∧
    run_jobs [okInput, missingFieldInput] = [run_job okInput, run_job missingFieldInput] := by
  obtain ⟨h1, h2, h3, h4, h5⟩ :=
    undefined_field_raises_rule_scoped_error missingFieldInput "threads" rfl
  exact ⟨h1, h2, by simpa using h5 [okInput] []⟩

/-- C10: with no native-argument template configured (`args = None`),
interpolation is applied to the empty string and always succeeds: no
`WorkflowError` can arise from the absent setting, the request's native
specification is the empty string, and a successful submission proceeds
normally. -/
theorem no_args_interpolates_empty (inp : RunInput) (h : inp.args = none) :
    format_wildcards inp.job.fields (inp.args.getD []) = .ok "" ∧
    (run_job inp).nativeSpec = some "" ∧
    (∀ m r, (run_job inp).outcome ≠ RunOutcome.workflowError m r) ∧
    (∀ extId, inp.submitResult = .ok extId →
      (run_job inp).outcome = .normal ∧
      (run_job inp).reportedSubmission = true ∧
      (run_job inp).external_jobid = some extId) := by
  have hf : format_wildcards inp.job.fields (inp.args.getD []) = .ok "" := by
    rw [h]; rfl
  refine ⟨hf, ?_, ?_, ?_⟩
  · cases hr : inp.submitResult <;> simp [run_job, hf, hr]
  · intro m r
    cases hr : inp.submitResult <;> simp [run_job, hf, hr]
  · intro extId hr
    refine ⟨?_, ?_, ?_⟩ <;> simp [run_job, hf, hr]

/-- C10 witness: a task with no `args` setting and a successful
submission with remote id 9. -/
theorem no_args_interpolates_empty_witness :
    format_wildcards noArgsInput.job.fields (noArgsInput.args.getD []) = .ok "" ∧
    (run_job noArgsInput).nativeSpec = some "" ∧
    (run_job noArgsInput).outcome = .normal ∧
    (run_job noArgsInput).reportedSubmission = true ∧
    (run_job noArgsInput).external_jobid = some 9 := by
  obtain ⟨h1, h2, h3, h4⟩ := no_args_interpolates_empty noArgsInput rfl
  obtain ⟨h5, h6, h7⟩ := h4 9 rfl
  exact ⟨h1, h2, h5, h6, h7⟩

/-- C9: cancellation is best-effort — if every terminate call either
succeeds or raises one of the two swallowed exception classes
(`InvalidJobException`, `InternalException`), no exception propagates
and a terminate attempt is made for every entry in order; an exception
outside those classes propagates to the caller (after its own attempt
was made). -/
theorem cancel_swallows_expected_errors :
    (∀ entries : List (SubmittedJobInfo × ControlResult),
      (∀ p ∈ entries, p.2.swallowed = true) →
      cancel_jobs entries = (entries.map (fun p => p.1.external_jobid), none)) ∧
    (∀ (pre : List (SubmittedJobInfo × ControlResult)) (aj : SubmittedJobInfo)
      (e : String) (rest : List (SubmittedJobInfo × ControlResult)),
      (∀ p ∈ pre, p.2.swallowed = true) →
      (cancel_jobs (pre ++ (aj, ControlResult.other e) :: rest)).2 = some e ∧
      aj.external_jobid ∈ (cancel_jobs (pre ++ (aj, ControlResult.other e) :: rest)).1) := by
  constructor
  · intro entries h
    induction entries with
    | nil => rfl
    | cons p rest ih =>
        obtain ⟨aj, r⟩ := p
        have hr : r.swallowed = true := h _ (List.mem_cons_self _ _)
        have ht := ih (fun q hq => h q (List.mem_cons_of_mem _ hq))
        cases r <;> simp_all [cancel_jobs, ControlResult.swallowed]
  · intro pre aj e rest h
    induction pre with
    | nil => exact ⟨rfl, List.mem_singleton.mpr rfl⟩
    | cons p pre ih =>
        obtain ⟨aj2, r⟩ := p
        have hr : r.swallowed = true := h _ (List.mem_cons_self _ _)
        have ht := ih (fun q hq => h q (List.mem_cons_of_mem _ hq))
        cases r <;> simp_all [cancel_jobs, ControlResult.swallowed]

/-- C9 witness: `cancel([A, B])` with A raising `InvalidJobException` and
B succeeding propagates nothing and attempts both; with B instead
raising an unswallowed exception, that exception escapes after B's
attempt. -/
theorem cancel_swallows_expected_errors_witness :
    cancel_jobs [(ajA, ControlResult.invalidJob), (ajB, ControlResult.ok)] =
      ([11, 12], none) ∧
    (cancel_jobs [(ajA, ControlResult.invalidJob), (ajB, ControlResult.other "boom")]).2 =
      some "boom" ∧
    ajB.external_jobid ∈
      (cancel_jobs [(ajA, ControlResult.invalidJob), (ajB, ControlResult.other "boom")]).1 := by
  have h1 := cancel_swallows_expected_errors.1
    [(ajA, ControlResult.invalidJob), (ajB, ControlResult.ok)] (by decide)
  have h2 := cancel_swallows_expected_errors.2
    [(ajA, ControlResult.invalidJob)] ajB "boom" [] (by decide)
  exact ⟨h1, h2.1, h2.2⟩

end Drmaa
